import Mathlib

/-!
Shallow embedding of the per-call session orchestrator of the voice-agent
service and its collaborators, translated from the JavaScript source:

  * src/routes/incoming-call.js  (media-stream WebSocket route: connection
    state, OpenAI event handling, Twilio event handling, barge-in,
    greeting join, audio buffering, transcript finalization triggers)
  * src/handlers/inactivity.js   (inactivity timer state machine)
  * src/handlers/functions.js    (tool-call handlers)
  * src/config/index.js          (INACTIVITY_SETTINGS)
  * the two findPhoneMatch variants of the phone-lookup service

Mutable closure variables of the connection handler become fields of a
`Session` structure; each JavaScript event handler becomes a function
`Session -> Session × List Sent`, where `Sent` records the outbound
messages to the two WebSocket legs as well as timer arm/cancel actions.
Network sends, logging, audio payload contents and the speech-to-text
side channel carry no call-state logic and are elided; every branch that
touches the modelled state is translated faithfully, including the
JavaScript truthiness checks (empty string falsy, 0 falsy, null falsy).
-/

namespace VoiceAgent

/-- JavaScript truthiness of an optional string value: `undefined`/`null`
and the empty string are falsy, every other string is truthy. -/
def truthyStr : Option String → Bool
  | some s => !(s == "")
  | none => false

/-- JavaScript truthiness of an optional numeric value: `undefined`/`null`
and 0 are falsy. -/
def truthyInt : Option Int → Bool
  | some v => !(v == 0)
  | none => false

/-! ## Inactivity configuration (src/config/index.js) -/

/-- Inactivity timeout settings, in milliseconds. -/
structure InactivityConfig where
  FIRST_WARNING : Nat
  FINAL_WARNING : Nat
  HANGUP : Nat
deriving DecidableEq, Repr

/-- INACTIVITY_SETTINGS of src/config/index.js: 30s, 45s, 60s. -/
def INACTIVITY_SETTINGS : InactivityConfig :=
  { FIRST_WARNING := 30000, FINAL_WARNING := 45000, HANGUP := 60000 }

/-- Timeout chosen by startInactivityTimer (src/handlers/inactivity.js,
lines 20-27) as a function of the current warning count. -/
def inactivityDuration (warningCount : Nat) : Nat :=
  if warningCount = 0 then INACTIVITY_SETTINGS.FIRST_WARNING
  else if warningCount = 1 then
    INACTIVITY_SETTINGS.FINAL_WARNING - INACTIVITY_SETTINGS.FIRST_WARNING
  else
    INACTIVITY_SETTINGS.HANGUP - INACTIVITY_SETTINGS.FINAL_WARNING

/-! ## Collected-facts state and the save_caller_info handler
(src/handlers/functions.js, src/utils/helpers.js createInitialCallState) -/

/-- Collected-facts ("slot memory") fields of the call state that the
save_caller_info merge can touch, plus the disconnect fields used by the
close handler.  JavaScript `null` is `none`. -/
structure CallState where
  property_id : Option String := none
  property_name : Option String := none
  caller_name : Option String := none
  caller_email : Option String := none
  issue_description : Option String := none
  is_existing_client : Option Bool := none
  is_logged_in : Option Bool := none
  routing : Option String := none
  current_state : Option String := some "A"
  sales_need : Option String := none
  demo_choice : Option String := none
  demo_preferred_time : Option String := none
  disconnected_by : Option String := none
  disconnect_reason : Option String := none
deriving DecidableEq, Repr

/-- Arguments of a save_caller_info tool call; a field absent from the
JSON arguments object is `none`. `intent` is read by the handler even
though the tool schema does not declare it. -/
structure SaveArgs where
  property_id : Option String := none
  property_name : Option String := none
  caller_name : Option String := none
  caller_email : Option String := none
  issue_description : Option String := none
  is_existing_client : Option Bool := none
  is_logged_in : Option Bool := none
  current_state : Option String := none
  sales_need : Option String := none
  demo_choice : Option String := none
  demo_preferred_time : Option String := none
  intent : Option String := none
deriving DecidableEq, Repr

/-- The state-update part of handleSaveCallerInfo
(src/handlers/functions.js lines 8-18).  String fields are guarded by
JavaScript truthiness (`if (args.x)`), the two boolean fields by
`!== undefined`. -/
def mergeCallerInfo (args : SaveArgs) (cs : CallState) : CallState :=
  let cs := if truthyStr args.property_id then { cs with property_id := args.property_id } else cs
  let cs := if truthyStr args.property_name then { cs with property_name := args.property_name } else cs
  let cs := if truthyStr args.caller_name then { cs with caller_name := args.caller_name } else cs
  let cs := if truthyStr args.caller_email then { cs with caller_email := args.caller_email } else cs
  let cs := if truthyStr args.issue_description then { cs with issue_description := args.issue_description } else cs
  let cs := if args.is_existing_client.isSome then { cs with is_existing_client := args.is_existing_client } else cs
  let cs := if args.is_logged_in.isSome then { cs with is_logged_in := args.is_logged_in } else cs
  let cs := if truthyStr args.current_state then { cs with current_state := args.current_state } else cs
  let cs := if truthyStr args.sales_need then { cs with sales_need := args.sales_need } else cs
  let cs := if truthyStr args.demo_choice then { cs with demo_choice := args.demo_choice } else cs
  let cs := if truthyStr args.demo_preferred_time then { cs with demo_preferred_time := args.demo_preferred_time } else cs
  cs

/-- Digit characters of a string, in order: the JavaScript
`replace(/[^0-9]/g, "")`. -/
def digitsOf (s : String) : List Char :=
  s.toList.filter Char.isDigit

/-- phoneDigits of handleSaveCallerInfo line 23:
`callerNumber ? callerNumber.replace(/[^0-9]/g, "") : ""`. -/
def phoneDigitsOf (callerNumber : Option String) : List Char :=
  if truthyStr callerNumber then digitsOf (callerNumber.getD "") else []

/-- last3 of handleSaveCallerInfo line 24: the last three digits when at
least three are available, otherwise all available digits. -/
def last3Of (callerNumber : Option String) : List Char :=
  let phoneDigits := phoneDigitsOf callerNumber
  if 3 ≤ phoneDigits.length then phoneDigits.drop (phoneDigits.length - 3) else phoneDigits

/-- last3Spaced of handleSaveCallerInfo line 25:
`last3.split("").join(" ")`. -/
def spaceOut (l : List Char) : String :=
  String.intercalate " " (l.map fun c => String.mk [c])

/-- The responseData object built by handleSaveCallerInfo
(src/handlers/functions.js lines 27-38). -/
structure SaveResponseData where
  success : Bool
  saved : SaveArgs
  caller_phone_last3 : Option String
  caller_phone_available : Bool
  SPEAK_THIS : Option String := none
  INSTRUCTION : Option String := none
deriving DecidableEq, Repr

/-- Builds the responseData of handleSaveCallerInfo lines 22-38, with the
SPEAK_THIS / INSTRUCTION pair added exactly when `args.intent` equals
"demo_booking" and last3 is a truthy (nonempty) string. -/
def saveCallerInfoResponse (args : SaveArgs) (callerNumber : Option String) : SaveResponseData :=
  let last3 := last3Of callerNumber
  let last3Spaced := if last3.isEmpty then "" else spaceOut last3
  let base : SaveResponseData :=
    { success := true
      saved := args
      caller_phone_last3 := if last3.isEmpty then none else some (String.mk last3)
      caller_phone_available := truthyStr callerNumber }
  if args.intent == some "demo_booking" && !last3.isEmpty then
    { base with
      SPEAK_THIS := some ("Demo is all set. Is it okay to call you on the number you are calling from, which ends in " ++ last3Spaced ++ "?")
      INSTRUCTION := some ("You MUST say the above SPEAK_THIS text exactly, then WAIT for the caller\x27s response. The last 3 digits of their phone number are " ++ last3Spaced ++ ". Say each digit separately.") }
  else base

/-! ## Messages sent on the two legs -/

/-- Outcome of the pricing fetch inside handleGetPricingDetails: either a
2xx response whose JSON body is abstracted as a string, a non-ok HTTP
status (the handler throws and catches `HTTP status: statusText`), or a
network-level rejection. -/
inductive FetchResult
  | ok (body : String)
  | httpError (status : Nat) (statusText : String)
  | fetchFailed (message : String)
deriving DecidableEq, Repr

/-- The caller-safe error message of the pricing handler
(src/handlers/functions.js line 111). -/
def pricingErrorMessage : String :=
  "Unable to retrieve pricing details. Please contact sales for current pricing."

/-- Output payload of a get_pricing_details function_call_output. -/
inductive PricingPayload
  | rates (body : String)
  | fetchError (message : String) (details : String)
deriving DecidableEq, Repr

/-- Payload of a function_call_output conversation item (only the two
handlers the claims exercise are distinguished). -/
inductive FnPayload
  | saveCallerInfo (d : SaveResponseData)
  | pricing (d : PricingPayload)
deriving DecidableEq, Repr

/-- Messages sent to the AI-provider leg.  Payloads that no claim
inspects (session configuration, greeting text, appended audio bytes)
are elided. -/
inductive OaiMsg
  | sessionUpdate
  | initialConversationItem
  | responseCreate
  | truncateItem (item_id : String) (audio_end_ms : Int)
  | audioAppend (audio : String)
  | functionCallOutput (call_id : String) (output : FnPayload)
  | inactivityPrompt (warningCount : Nat)
deriving DecidableEq, Repr

/-- Messages sent to the telephony (Twilio) leg. -/
inductive TwMsg
  | media (streamSid : String) (payload : String)
  | mark (streamSid : String)
  | clear (streamSid : Option String)
deriving DecidableEq, Repr

/-- One observable action of the orchestrator: a message on either leg,
or arming/cancelling the inactivity timer. -/
inductive Sent
  | toOpenAI (m : OaiMsg)
  | toTwilio (m : TwMsg)
  | timerStart (durationMs : Nat)
  | timerCancel
deriving DecidableEq, Repr

/-! ## Tool-call handlers (src/handlers/functions.js) -/

/-- handleSaveCallerInfo: merges the provided fields into the call state
and sends one function_call_output (echoing the call id) followed by one
response.create. -/
def handleSaveCallerInfo (args : SaveArgs) (cs : CallState)
    (callerNumber : Option String) (call_id : String) : CallState × List OaiMsg :=
  (mergeCallerInfo args cs,
   [.functionCallOutput call_id (.saveCallerInfo (saveCallerInfoResponse args callerNumber)),
    .responseCreate])

/-- Arguments of a get_pricing_details call.  The handler defaults the
property type to "Hotel", but uses it only in log output. -/
structure PricingArgs where
  property_type : Option String := none
deriving DecidableEq, Repr

/-- handleGetPricingDetails: on a 2xx fetch sends the rates body, on any
failure (non-ok status or rejected fetch) sends the caller-safe error
payload; in every case exactly one function_call_output echoing the call
id and one response.create. -/
def handleGetPricingDetails (args : PricingArgs) (call_id : String)
    (fetchResult : FetchResult) : List OaiMsg :=
  match fetchResult with
  | .ok body =>
      [.functionCallOutput call_id (.pricing (.rates body)), .responseCreate]
  | .httpError status statusText =>
      [.functionCallOutput call_id
         (.pricing (.fetchError pricingErrorMessage
            ("HTTP " ++ toString status ++ ": " ++ statusText))),
       .responseCreate]
  | .fetchFailed message =>
      [.functionCallOutput call_id (.pricing (.fetchError pricingErrorMessage message)),
       .responseCreate]

/-! ## Per-connection session state (src/routes/incoming-call.js
lines 121-151)

The mutable closure variables of the media-stream connection handler.
Variables that only feed logging or the speech-to-text side channel
(allEvents, silence counters, callerAudioChunks, caller/callee numbers,
webhook body, recordingSid, token counters) carry no logic any claim
depends on and are elided; `finalizeCount` counts the invocations of
saveTranscript, whose body performs the persist / backup / email
sequence against external collaborators. -/
structure Session where
  streamSid : Option String := none
  latestMediaTimestamp : Int := 0
  lastAssistantItem : Option String := none
  markQueue : List String := []
  responseStartTimestampTwilio : Option Int := none
  sessionInitialized : Bool := false
  shouldSendInitialGreeting : Bool := true
  pendingAudioDeltas : List String := []
  conversationLog : List (String × String) := []
  inactivityWarningCount : Nat := 0
  inactivityTimer : Option Nat := none
  disconnected_by : Option String := none
  disconnect_reason : Option String := none
  finalizeCount : Nat := 0
deriving DecidableEq, Repr

/-- The state of a fresh connection. -/
def initialSession : Session := {}

/-! ## Inactivity handler closure (src/handlers/inactivity.js), acting on
the session fields inactivityWarningCount / inactivityTimer.  The armed
timer is modelled by the duration it was armed with. -/

/-- startInactivityTimer: clear any armed timer, then arm one with the
warning-count-dependent duration. -/
def startInactivityTimer (s : Session) : Session × List Sent :=
  let cancel : List Sent := if s.inactivityTimer.isSome then [.timerCancel] else []
  let d := inactivityDuration s.inactivityWarningCount
  ({ s with inactivityTimer := some d }, cancel ++ [.timerStart d])

/-- resetInactivityTimer: cancel any armed timer and reset the warning
count to zero (caller spoke). -/
def resetInactivityTimer (s : Session) : Session × List Sent :=
  let cancel : List Sent := if s.inactivityTimer.isSome then [.timerCancel] else []
  ({ s with inactivityTimer := none, inactivityWarningCount := 0 }, cancel)

/-- clearTimers: cancel any armed timer (cleanup on close). -/
def clearTimers (s : Session) : Session × List Sent :=
  if s.inactivityTimer.isSome then
    ({ s with inactivityTimer := none }, [.timerCancel])
  else (s, [])

/-- The setTimeout callback of startInactivityTimer firing: increments
the warning count and sends the escalation prompt for the new count
followed by a response.create. -/
def fireInactivityTimer (s : Session) : Session × List Sent :=
  let n := s.inactivityWarningCount + 1
  ({ s with inactivityWarningCount := n, inactivityTimer := none },
   [.toOpenAI (.inactivityPrompt n), .toOpenAI .responseCreate])

/-! ## Connection-scoped helper functions of the media-stream route -/

/-- sendInitialConversationItem (lines 190-196): the greeting directive,
an initial conversation item followed by a response.create trigger. -/
def greetingDirective : List Sent :=
  [.toOpenAI .initialConversationItem, .toOpenAI .responseCreate]

/-- initializeSession (lines 175-187): send the session update, mark the
handshake complete, and send the greeting if the stream identifier is
already known and the greeting is still pending. -/
def initializeSession (s : Session) : Session × List Sent :=
  if s.streamSid.isSome && s.shouldSendInitialGreeting then
    ({ s with sessionInitialized := true, shouldSendInitialGreeting := false },
     .toOpenAI .sessionUpdate :: greetingDirective)
  else
    ({ s with sessionInitialized := true }, [.toOpenAI .sessionUpdate])

/-- handleSpeechStartedEvent (lines 199-222): when the playback-mark
queue is non-empty and the response-start timestamp is non-null, send a
truncate command for the last assistant item (when one is known) scoped
to latestMediaTimestamp minus the response-start timestamp, send a clear
command to the telephony leg, and reset the mark queue, the last
assistant item and the response-start timestamp; otherwise do nothing. -/
def handleSpeechStartedEvent (s : Session) : Session × List Sent :=
  match s.markQueue, s.responseStartTimestampTwilio with
  | _ :: _, some t =>
      let elapsedTime := s.latestMediaTimestamp - t
      let truncateOut : List Sent :=
        match s.lastAssistantItem with
        | some item => [.toOpenAI (.truncateItem item elapsedTime)]
        | none => []
      ({ s with markQueue := [], lastAssistantItem := none,
                responseStartTimestampTwilio := none },
       truncateOut ++ [.toTwilio (.clear s.streamSid)])
  | _, _ => (s, [])

/-! ## Events on the two legs -/

/-- Events received from the AI-provider leg that the message handler
(lines 258-435) dispatches on and that touch the modelled state. -/
inductive OaiEvent
  | speechStarted
  | inputTranscriptDone (transcript : String)
  | outputAudioTranscriptDone (transcript : String)
  | responseAudioDone
  | responseDone
  | outputAudioDelta (delta : String) (item_id : Option String)
  | speechStopped
deriving DecidableEq, Repr

/-- The OpenAI message handler (lines 258-435).  Event types are
distinct, so the chain of independent `if` statements in the source is a
dispatch on the event type; the early `return` in the audio-delta branch
when no stream identifier is known buffers the delta and skips the rest
of the handler. -/
def processOaiEvent (s : Session) (e : OaiEvent) : Session × List Sent :=
  match e with
  | .speechStarted =>
      -- lines 316-335: silence bookkeeping elided; resets the inactivity timer
      resetInactivityTimer s
  | .inputTranscriptDone t =>
      -- lines 338-351: push a user line when the transcript is nonblank
      if t.trim == "" then (s, [])
      else ({ s with conversationLog := s.conversationLog ++ [("user", t)] }, [])
  | .outputAudioTranscriptDone t =>
      -- lines 381-390: push an assistant line unless it duplicates the last entry
      if t == "" then (s, [])
      else
        let dup :=
          match s.conversationLog.getLast? with
          | some last => last.1 == "assistant" && last.2 == t
          | none => false
        if dup then (s, [])
        else ({ s with conversationLog := s.conversationLog ++ [("assistant", t)] }, [])
  | .responseAudioDone => startInactivityTimer s
  | .responseDone => startInactivityTimer s
  | .outputAudioDelta delta item_id =>
      match s.streamSid with
      | none =>
          -- lines 399-402: buffer and return early
          ({ s with pendingAudioDeltas := s.pendingAudioDeltas ++ [delta] }, [])
      | some sid =>
          -- lines 404-419: forward, latch response start, remember item, send mark
          let s := if truthyInt s.responseStartTimestampTwilio then s
                   else { s with responseStartTimestampTwilio := some s.latestMediaTimestamp }
          let s := if truthyStr item_id then { s with lastAssistantItem := item_id } else s
          ({ s with markQueue := s.markQueue ++ ["responsePart"] },
           [.toTwilio (.media sid delta), .toTwilio (.mark sid)])
  | .speechStopped =>
      -- lines 423-430: runs handleSpeechStartedEvent (transcription elided)
      handleSpeechStartedEvent s

/-- Events received from the telephony leg (lines 438-567). -/
inductive TwEvent
  | media (timestamp : Int) (payload : String)
  | start (streamSid : String)
  | stop
  | mark
deriving DecidableEq, Repr

/-- The Twilio message handler (lines 438-567).  The caller-info and
webhook extraction, asynchronous phone lookup and recording start in the
start branch mutate only elided fields. -/
def processTwilioEvent (s : Session) (e : TwEvent) : Session × List Sent :=
  match e with
  | .media ts payload =>
      ({ s with latestMediaTimestamp := ts }, [.toOpenAI (.audioAppend payload)])
  | .start sid =>
      let s := { s with streamSid := some sid }
      let flushOut := s.pendingAudioDeltas.map fun d => Sent.toTwilio (.media sid d)
      let s := { s with pendingAudioDeltas := [] }
      let (s, greetOut) :=
        if s.sessionInitialized && s.shouldSendInitialGreeting then
          ({ s with shouldSendInitialGreeting := false }, greetingDirective)
        else (s, ([] : List Sent))
      ({ s with responseStartTimestampTwilio := none, latestMediaTimestamp := 0 },
       flushOut ++ greetOut)
  | .stop =>
      -- line 555: saveTranscript() with no once-guard
      ({ s with finalizeCount := s.finalizeCount + 1 }, [])
  | .mark =>
      match s.markQueue with
      | [] => (s, [])
      | _ :: rest => ({ s with markQueue := rest }, [])

/-- The connection close handler (lines 664-683): record the caller as
the disconnecting party when nobody was recorded yet, clear the timers,
and run saveTranscript (again with no once-guard). -/
def processConnectionClose (s : Session) : Session × List Sent :=
  let s := if truthyStr s.disconnected_by then s
           else { s with disconnected_by := some "caller",
                         disconnect_reason := some "caller_hangup" }
  let (s, out) := clearTimers s
  ({ s with finalizeCount := s.finalizeCount + 1 }, out)

/-- One inbound event of a call: the OpenAI socket opening (which runs
initializeSession), a message on either leg, or the connection closing. -/
inductive Ev
  | openAiOpen
  | openAi (e : OaiEvent)
  | twilio (e : TwEvent)
  | connClose
deriving DecidableEq, Repr

/-- Process one event. -/
def step (s : Session) : Ev → Session × List Sent
  | .openAiOpen => initializeSession s
  | .openAi e => processOaiEvent s e
  | .twilio e => processTwilioEvent s e
  | .connClose => processConnectionClose s

/-- Process a sequence of events, accumulating the sent actions. -/
def run (s : Session) : List Ev → Session × List Sent
  | [] => (s, [])
  | e :: rest =>
      let (s1, o1) := step s e
      let (s2, o2) := run s1 rest
      (s2, o1 ++ o2)

/-! ## Observation helpers -/

/-- Is this action the initial conversation item of the greeting
directive? -/
def isGreetingItem : Sent → Bool
  | .toOpenAI .initialConversationItem => true
  | _ => false

/-- Number of greeting directives among the sent actions. -/
def greetingCount (out : List Sent) : Nat :=
  out.countP fun m => isGreetingItem m

/-- Is this action the arming of the inactivity timer? -/
def isTimerStart : Sent → Bool
  | .timerStart _ => true
  | _ => false

/-- Is this action a truncate-item command to the AI provider? -/
def isTruncate : Sent → Bool
  | .toOpenAI (.truncateItem _ _) => true
  | _ => false

/-- Does this event trigger the finalization logic (saveTranscript)? -/
def isFinalizeEvent : Ev → Bool
  | .twilio .stop => true
  | .connClose => true
  | _ => false

/-- Payloads of media commands sent to the telephony leg, in order. -/
def twilioMediaPayloads (out : List Sent) : List String :=
  out.filterMap fun m =>
    match m with
    | .toTwilio (.media _ p) => some p
    | _ => none

/-- Is this AI-provider message a function_call_output item? -/
def isFnOutput : OaiMsg → Bool
  | .functionCallOutput _ _ => true
  | _ => false

/-- Is this AI-provider message a response.create trigger? -/
def isRespCreate : OaiMsg → Bool
  | .responseCreate => true
  | _ => false

/-- Call identifiers echoed by the function_call_output items of a
message list, in order. -/
def fnOutputCallIds (out : List OaiMsg) : List String :=
  out.filterMap fun m =>
    match m with
    | .functionCallOutput cid _ => some cid
    | _ => none

/-! ## Phone lookup: the two findPhoneMatch variants

The repository carries two versions of the phone-lookup helper.  The
single-match version returns the first mapping whose number matches the
caller (digit-normalized equality checked first, then literal string
equality).  The multi-match version collects every matching mapping
(deduplicated by property id) and exposes the first one at top level for
backward compatibility.  Both guard against a falsy phone number; the
mappings argument is already a list here, so the Array.isArray guard of
the source always passes. -/

/-- One entry of phone-mappings.json. -/
structure PhoneMapping where
  property_id : String
  property_name : String
  phone_number : String
deriving DecidableEq, Repr

/-- The projection both versions return for a matching mapping. -/
structure PropertyMatch where
  property_id : String
  property_name : String
  phone_number : String
deriving DecidableEq, Repr

/-- Digit-normalization of a phone number: `String(x).replace(/\D/g, "")`. -/
def normalizePhone (s : String) : String :=
  String.mk (digitsOf s)

/-- The match criterion shared by both versions: digit-normalized
equality or literal string equality. -/
def phoneMatches (phoneNumber : String) (m : PhoneMapping) : Bool :=
  normalizePhone phoneNumber == normalizePhone m.phone_number
    || phoneNumber == m.phone_number

/-- Projection of a matching mapping. -/
def matchResultOf (m : PhoneMapping) : PropertyMatch :=
  { property_id := m.property_id
    property_name := m.property_name
    phone_number := m.phone_number }

/-- Loop of the single-match findPhoneMatch: the two `if` statements of
the source body, first the normalized comparison and then the literal
one, returning on the first mapping that matches. -/
def findFirstMatch (phoneNumber : String) : List PhoneMapping → Option PropertyMatch
  | [] => none
  | m :: rest =>
      if normalizePhone phoneNumber == normalizePhone m.phone_number then
        some (matchResultOf m)
      else if phoneNumber == m.phone_number then
        some (matchResultOf m)
      else findFirstMatch phoneNumber rest

/-- The single-match findPhoneMatch (first variant of the lookup
service). -/
def findPhoneMatchOne (phoneNumber : String) (mappings : List PhoneMapping) :
    Option PropertyMatch :=
  if phoneNumber == "" then none
  else findFirstMatch phoneNumber mappings

/-- Result object of the multi-match findPhoneMatch. -/
structure MultiMatchResult where
  is_existing_client : Bool
  property_count : Nat
  has_multiple_properties : Bool
  properties : List PropertyMatch
  property_id : String
  property_name : String
  phone_number : String
deriving DecidableEq, Repr

/-- Loop of the multi-match findPhoneMatch: push every matching mapping
whose property id has not been seen yet. -/
def collectMatches (phoneNumber : String) :
    List PhoneMapping → List PropertyMatch → List String → List PropertyMatch
  | [], acc, _ => acc
  | m :: rest, acc, seen =>
      let isMatch := phoneMatches phoneNumber m
      if isMatch && !(seen.contains m.property_id) then
        collectMatches phoneNumber rest (acc ++ [matchResultOf m]) (seen ++ [m.property_id])
      else
        collectMatches phoneNumber rest acc seen

/-- The multi-match findPhoneMatch (second variant of the lookup
service). -/
def findPhoneMatchAll (phoneNumber : String) (mappings : List PhoneMapping) :
    Option MultiMatchResult :=
  if phoneNumber == "" then none
  else
    let matchedProperties := collectMatches phoneNumber mappings [] []
    match matchedProperties with
    | [] => none
    | first :: _ =>
        some { is_existing_client := true
               property_count := matchedProperties.length
               has_multiple_properties := decide (1 < matchedProperties.length)
               properties := matchedProperties
               property_id := first.property_id
               property_name := first.property_name
               phone_number := first.phone_number }

/-- The top-level backward-compatibility fields of a multi-match
result. -/
def topLevelOf (r : MultiMatchResult) : PropertyMatch :=
  { property_id := r.property_id
    property_name := r.property_name
    phone_number := r.phone_number }

/-! ## Concrete states used as inputs of specific theorems -/

/-- A mid-playback session: the AI response started playing at telephony
timestamp 0, the latest media timestamp is 150, one playback mark is
outstanding and the last assistant item is known. -/
def bargeSession : Session :=
  { initialSession with
    streamSid := some "MZ0001"
    latestMediaTimestamp := 150
    lastAssistantItem := some "item_1"
    markQueue := ["responsePart"]
    responseStartTimestampTwilio := some 0 }

/-- A save_caller_info call whose arguments carry only the demo-booking
intent marker. -/
def argsDemo : SaveArgs := { intent := some "demo_booking" }

/-! ## Helper lemmas: projections of the save_caller_info merge -/

theorem truthyStr_none : truthyStr none = false := rfl

theorem merge_property_id (args : SaveArgs) (cs : CallState) :
    (mergeCallerInfo args cs).property_id =
      if truthyStr args.property_id then args.property_id else cs.property_id := by
  simp only [mergeCallerInfo, apply_ite CallState.property_id, ite_self]

theorem merge_property_name (args : SaveArgs) (cs : CallState) :
    (mergeCallerInfo args cs).property_name =
      if truthyStr args.property_name then args.property_name else cs.property_name := by
  simp only [mergeCallerInfo, apply_ite CallState.property_name, ite_self]

theorem merge_caller_name (args : SaveArgs) (cs : CallState) :
    (mergeCallerInfo args cs).caller_name =
      if truthyStr args.caller_name then args.caller_name else cs.caller_name := by
  simp only [mergeCallerInfo, apply_ite CallState.caller_name, ite_self]

theorem merge_caller_email (args : SaveArgs) (cs : CallState) :
    (mergeCallerInfo args cs).caller_email =
      if truthyStr args.caller_email then args.caller_email else cs.caller_email := by
  simp only [mergeCallerInfo, apply_ite CallState.caller_email, ite_self]

theorem merge_issue_description (args : SaveArgs) (cs : CallState) :
    (mergeCallerInfo args cs).issue_description =
      if truthyStr args.issue_description then args.issue_description else cs.issue_description := by
  simp only [mergeCallerInfo, apply_ite CallState.issue_description, ite_self]

theorem merge_is_existing_client (args : SaveArgs) (cs : CallState) :
    (mergeCallerInfo args cs).is_existing_client =
      if args.is_existing_client.isSome then args.is_existing_client else cs.is_existing_client := by
  simp only [mergeCallerInfo, apply_ite CallState.is_existing_client, ite_self]

theorem merge_is_logged_in (args : SaveArgs) (cs : CallState) :
    (mergeCallerInfo args cs).is_logged_in =
      if args.is_logged_in.isSome then args.is_logged_in else cs.is_logged_in := by
  simp only [mergeCallerInfo, apply_ite CallState.is_logged_in, ite_self]

theorem merge_current_state (args : SaveArgs) (cs : CallState) :
    (mergeCallerInfo args cs).current_state =
      if truthyStr args.current_state then args.current_state else cs.current_state := by
  simp only [mergeCallerInfo, apply_ite CallState.current_state, ite_self]

theorem merge_sales_need (args : SaveArgs) (cs : CallState) :
    (mergeCallerInfo args cs).sales_need =
      if truthyStr args.sales_need then args.sales_need else cs.sales_need := by
  simp only [mergeCallerInfo, apply_ite CallState.sales_need, ite_self]

theorem merge_demo_choice (args : SaveArgs) (cs : CallState) :
    (mergeCallerInfo args cs).demo_choice =
      if truthyStr args.demo_choice then args.demo_choice else cs.demo_choice := by
  simp only [mergeCallerInfo, apply_ite CallState.demo_choice, ite_self]

theorem merge_demo_preferred_time (args : SaveArgs) (cs : CallState) :
    (mergeCallerInfo args cs).demo_preferred_time =
      if truthyStr args.demo_preferred_time then args.demo_preferred_time else cs.demo_preferred_time := by
  simp only [mergeCallerInfo, apply_ite CallState.demo_preferred_time, ite_self]

theorem merge_routing (args : SaveArgs) (cs : CallState) :
    (mergeCallerInfo args cs).routing = cs.routing := by
  simp only [mergeCallerInfo, apply_ite CallState.routing, ite_self]

theorem merge_disconnected_by (args : SaveArgs) (cs : CallState) :
    (mergeCallerInfo args cs).disconnected_by = cs.disconnected_by := by
  simp only [mergeCallerInfo, apply_ite CallState.disconnected_by, ite_self]

theorem merge_disconnect_reason (args : SaveArgs) (cs : CallState) :
    (mergeCallerInfo args cs).disconnect_reason = cs.disconnect_reason := by
  simp only [mergeCallerInfo, apply_ite CallState.disconnect_reason, ite_self]

/-- C7: the save_caller_info merge performs partial updates only: every
field omitted from the call arguments (including the routing and
disconnect fields, which the tool cannot carry at all) keeps its
previous value in the collected-facts state, so a field is overwritten
only when it is present in the arguments. -/
theorem save_caller_info_partial_update (args : SaveArgs) (cs : CallState) :
    (args.property_id = none → (mergeCallerInfo args cs).property_id = cs.property_id)
    ∧ (args.property_name = none → (mergeCallerInfo args cs).property_name = cs.property_name)
    ∧ (args.caller_name = none → (mergeCallerInfo args cs).caller_name = cs.caller_name)
    ∧ (args.caller_email = none → (mergeCallerInfo args cs).caller_email = cs.caller_email)
    ∧ (args.issue_description = none →
        (mergeCallerInfo args cs).issue_description = cs.issue_description)
    ∧ (args.is_existing_client = none →
        (mergeCallerInfo args cs).is_existing_client = cs.is_existing_client)
    ∧ (args.is_logged_in = none → (mergeCallerInfo args cs).is_logged_in = cs.is_logged_in)
    ∧ (args.current_state = none → (mergeCallerInfo args cs).current_state = cs.current_state)
    ∧ (args.sales_need = none → (mergeCallerInfo args cs).sales_need = cs.sales_need)
    ∧ (args.demo_choice = none → (mergeCallerInfo args cs).demo_choice = cs.demo_choice)
    ∧ (args.demo_preferred_time = none →
        (mergeCallerInfo args cs).demo_preferred_time = cs.demo_preferred_time)
    ∧ (mergeCallerInfo args cs).routing = cs.routing
    ∧ (mergeCallerInfo args cs).disconnected_by = cs.disconnected_by
    ∧ (mergeCallerInfo args cs).disconnect_reason = cs.disconnect_reason := by
  refine ⟨?_, ?_, ?_, ?_, ?_, ?_, ?_, ?_, ?_, ?_, ?_,
    merge_routing args cs, merge_disconnected_by args cs, merge_disconnect_reason args cs⟩
  · intro h; rw [merge_property_id, h, truthyStr_none]; simp
  · intro h; rw [merge_property_name, h, truthyStr_none]; simp
  · intro h; rw [merge_caller_name, h, truthyStr_none]; simp
  · intro h; rw [merge_caller_email, h, truthyStr_none]; simp
  · intro h; rw [merge_issue_description, h, truthyStr_none]; simp
  · intro h; rw [merge_is_existing_client, h]; simp
  · intro h; rw [merge_is_logged_in, h]; simp
  · intro h; rw [merge_current_state, h, truthyStr_none]; simp
  · intro h; rw [merge_sales_need, h, truthyStr_none]; simp
  · intro h; rw [merge_demo_choice, h, truthyStr_none]; simp
  · intro h; rw [merge_demo_preferred_time, h, truthyStr_none]; simp

/-- C7 witness: a concrete call providing only caller_name leaves the
previously recorded property_id and caller_email untouched. -/
theorem save_caller_info_partial_update_witness :
    (mergeCallerInfo { caller_name := some "John" }
        { property_id := some "P1", caller_email := some "p1@example.com" }).property_id =
      some "P1"
    ∧ (mergeCallerInfo { caller_name := some "John" }
        { property_id := some "P1", caller_email := some "p1@example.com" }).caller_email =
      some "p1@example.com" :=
  ⟨(save_caller_info_partial_update { caller_name := some "John" }
      { property_id := some "P1", caller_email := some "p1@example.com" }).1 rfl,
   (save_caller_info_partial_update { caller_name := some "John" }
      { property_id := some "P1", caller_email := some "p1@example.com" }).2.2.2.1 rfl⟩

/-- C8: every dispatch of the save_caller_info handler and of the
pricing handler, on the success path and on the collaborator-failure
path alike, sends exactly one function_call_output echoing the call
identifier and exactly one response.create; a failed pricing fetch
(non-ok HTTP status or rejected fetch) produces the caller-safe error
payload instead of an exception and still sends the response.create. -/
theorem tool_dispatch_one_result_one_continue (args : SaveArgs) (cs : CallState)
    (num : Option String) (cid : String) (pargs : PricingArgs) (fr : FetchResult) :
    ((handleSaveCallerInfo args cs num cid).2.countP (fun m => isFnOutput m) = 1
      ∧ (handleSaveCallerInfo args cs num cid).2.countP (fun m => isRespCreate m) = 1
      ∧ fnOutputCallIds (handleSaveCallerInfo args cs num cid).2 = [cid])
    ∧ ((handleGetPricingDetails pargs cid fr).countP (fun m => isFnOutput m) = 1
      ∧ (handleGetPricingDetails pargs cid fr).countP (fun m => isRespCreate m) = 1
      ∧ fnOutputCallIds (handleGetPricingDetails pargs cid fr) = [cid])
    ∧ (∀ status statusText, fr = .httpError status statusText →
        handleGetPricingDetails pargs cid fr =
          [.functionCallOutput cid (.pricing (.fetchError pricingErrorMessage
              ("HTTP " ++ toString status ++ ": " ++ statusText))),
           .responseCreate])
    ∧ (∀ message, fr = .fetchFailed message →
        handleGetPricingDetails pargs cid fr =
          [.functionCallOutput cid (.pricing (.fetchError pricingErrorMessage message)),
           .responseCreate]) := by
  refine ⟨⟨?_, ?_, ?_⟩, ⟨?_, ?_, ?_⟩, ?_, ?_⟩
  · simp [handleSaveCallerInfo, isFnOutput, isRespCreate, List.countP, List.countP.go]
  · simp [handleSaveCallerInfo, isFnOutput, isRespCreate, List.countP, List.countP.go]
  · simp [handleSaveCallerInfo, fnOutputCallIds]
  · cases fr <;>
      simp [handleGetPricingDetails, isFnOutput, isRespCreate, List.countP, List.countP.go]
  · cases fr <;>
      simp [handleGetPricingDetails, isFnOutput, isRespCreate, List.countP, List.countP.go]
  · cases fr <;> simp [handleGetPricingDetails, fnOutputCallIds]
  · intro status statusText h; subst h; rfl
  · intro message h; subst h; rfl

/-- C8 witness: with a concrete call id and an HTTP 500 failure the
pricing dispatch emits the caller-safe error payload followed by the
response.create trigger. -/
theorem tool_dispatch_one_result_one_continue_witness :
    handleGetPricingDetails {} "call_42" (.httpError 500 "Internal Server Error") =
      [.functionCallOutput "call_42" (.pricing (.fetchError pricingErrorMessage
          ("HTTP " ++ toString 500 ++ ": " ++ "Internal Server Error"))),
       .responseCreate] :=
  (tool_dispatch_one_result_one_continue {} {} none "call_42" {}
      (.httpError 500 "Internal Server Error")).2.2.1 500 "Internal Server Error" rfl

/-- C9: the inactivity timer is armed with a warning-count-dependent
duration (first threshold, then the gap to the final-warning threshold,
then the gap to the hang-up threshold), which with the configured
30s/45s/60s settings places the three firings at cumulative offsets
30s, 45s and 60s; detected caller speech cancels the timer and resets
the warning count to zero, and each firing increments the warning
count. -/
theorem inactivity_schedule :
    inactivityDuration 0 = INACTIVITY_SETTINGS.FIRST_WARNING
    ∧ inactivityDuration 1 =
        INACTIVITY_SETTINGS.FINAL_WARNING - INACTIVITY_SETTINGS.FIRST_WARNING
    ∧ (∀ n, 2 ≤ n → inactivityDuration n =
        INACTIVITY_SETTINGS.HANGUP - INACTIVITY_SETTINGS.FINAL_WARNING)
    ∧ inactivityDuration 0 = 30000
    ∧ inactivityDuration 0 + inactivityDuration 1 = 45000
    ∧ inactivityDuration 0 + inactivityDuration 1 + inactivityDuration 2 = 60000
    ∧ (∀ s : Session,
        (processOaiEvent s .responseAudioDone).1.inactivityTimer =
            some (inactivityDuration s.inactivityWarningCount)
          ∧ (processOaiEvent s .responseDone).1.inactivityTimer =
            some (inactivityDuration s.inactivityWarningCount))
    ∧ (∀ s : Session,
        (processOaiEvent s .speechStarted).1.inactivityTimer = none
          ∧ (processOaiEvent s .speechStarted).1.inactivityWarningCount = 0)
    ∧ (∀ s : Session,
        (fireInactivityTimer s).1.inactivityWarningCount = s.inactivityWarningCount + 1) := by
  refine ⟨rfl, rfl, ?_, rfl, rfl, rfl, ?_, ?_, ?_⟩
  · intro n hn
    have h0 : n ≠ 0 := by omega
    have h1 : n ≠ 1 := by omega
    simp [inactivityDuration, h0, h1]
  · intro s
    exact ⟨by simp [processOaiEvent, startInactivityTimer],
           by simp [processOaiEvent, startInactivityTimer]⟩
  · intro s
    exact ⟨by simp [processOaiEvent, resetInactivityTimer],
           by simp [processOaiEvent, resetInactivityTimer]⟩
  · intro s
    simp [fireInactivityTimer]

/-- C9 witness: the third and any later firing re-arms with the
hang-up gap, here at warning count 7. -/
theorem inactivity_schedule_witness :
    2 ≤ 7 ∧ inactivityDuration 7 =
      INACTIVITY_SETTINGS.HANGUP - INACTIVITY_SETTINGS.FINAL_WARNING :=
  ⟨by decide, inactivity_schedule.2.2.1 7 (by decide)⟩

theorem timerStart_not_in_media_map (sid : String) (l : List String) :
    ((l.map fun d => Sent.toTwilio (TwMsg.media sid d)).any fun a => isTimerStart a) = false := by
  induction l with
  | nil => rfl
  | cons d rest ih => simp [isTimerStart, ih]

/-- C2: the inactivity timer is armed exactly by the audio-turn
completion events (response.audio.done and the response-done completion
event) and by no other event: in particular never by the
transcript-done events that only report finished text, never by a
telephony-leg event, and never by session initialization or the
connection closing. -/
theorem inactivity_timer_armed_only_on_audio_turn_end :
    (∀ (s : Session) (e : OaiEvent),
        ((processOaiEvent s e).2.any fun a => isTimerStart a) = true
          ↔ (e = .responseAudioDone ∨ e = .responseDone))
    ∧ (∀ (s : Session) (e : TwEvent),
        ((processTwilioEvent s e).2.any fun a => isTimerStart a) = false)
    ∧ (∀ s : Session, ((initializeSession s).2.any fun a => isTimerStart a) = false)
    ∧ (∀ s : Session, ((processConnectionClose s).2.any fun a => isTimerStart a) = false) := by
  refine ⟨?_, ?_, ?_, ?_⟩
  · intro s e
    cases e with
    | speechStarted =>
        simp [processOaiEvent, resetInactivityTimer, isTimerStart]
    | inputTranscriptDone t =>
        simp only [processOaiEvent]
        split <;> simp
    | outputAudioTranscriptDone t =>
        simp only [processOaiEvent]
        split
        · simp
        · split <;> simp
    | responseAudioDone =>
        simp [processOaiEvent, startInactivityTimer, isTimerStart]
    | responseDone =>
        simp [processOaiEvent, startInactivityTimer, isTimerStart]
    | outputAudioDelta d i =>
        simp only [processOaiEvent]
        cases h : s.streamSid <;> simp [isTimerStart]
    | speechStopped =>
        simp only [processOaiEvent, handleSpeechStartedEvent]
        cases hq : s.markQueue with
        | nil => simp
        | cons a rest =>
            cases hr : s.responseStartTimestampTwilio with
            | none => simp
            | some t =>
                cases hi : s.lastAssistantItem <;> simp [isTimerStart]
  · intro s e
    cases e with
    | media ts p => simp [processTwilioEvent, isTimerStart]
    | start sid =>
        simp only [processTwilioEvent]
        split <;>
          simp [isTimerStart, greetingDirective, timerStart_not_in_media_map]
    | stop => simp [processTwilioEvent]
    | mark =>
        simp only [processTwilioEvent]
        cases s.markQueue <;> simp
  · intro s
    simp only [initializeSession]
    split <;> simp [isTimerStart, greetingDirective]
  · intro s
    simp only [processConnectionClose, clearTimers]
    split <;> split <;> simp [isTimerStart]

/-- C2 witness: the audio-done completion event arms the timer on a
fresh session. -/
theorem inactivity_timer_armed_only_on_audio_turn_end_witness :
    ((processOaiEvent initialSession .responseAudioDone).2.any fun a => isTimerStart a) = true :=
  (inactivity_timer_armed_only_on_audio_turn_end.1 initialSession .responseAudioDone).mpr
    (Or.inl rfl)

/-- C3: evaluation at the barge-in state (non-empty playback-mark queue,
known response start, known last assistant item).  The claim says a
speech-started signal from the AI provider triggers the truncate
command there, but the code invokes the handler named
handleSpeechStartedEvent only from the speech-stopped branch: the
speech-started event issues no truncate command and leaves the mark
queue untouched, while the very same truncate command (audio end 150 =
latest media timestamp 150 minus response start 0) is instead issued on
the speech-stopped event. -/
theorem barge_in_truncation_misses_speech_started :
    ((processOaiEvent bargeSession .speechStarted).2.countP fun a => isTruncate a) = 0
    ∧ (processOaiEvent bargeSession .speechStarted).1.markQueue = ["responsePart"]
    ∧ (processOaiEvent bargeSession .speechStopped).2 =
        [.toOpenAI (.truncateItem "item_1" 150), .toTwilio (.clear (some "MZ0001"))] := by
  refine ⟨rfl, rfl, ?_⟩
  show (handleSpeechStartedEvent bargeSession).2 = _
  rfl

/-- C4 counterexample: a demo-booking save_caller_info call with the
known caller number "anonymous" (a digitless string Twilio sends for
blocked caller ids).  The number is known (caller_phone_available is
true), yet the handler returns no spoken-confirmation instruction,
because the number contains no digits. -/
theorem demo_confirmation_counterexample :
    argsDemo.intent = some "demo_booking"
    ∧ (saveCallerInfoResponse argsDemo (some "anonymous")).caller_phone_available = true
    ∧ (saveCallerInfoResponse argsDemo (some "anonymous")).SPEAK_THIS = none
    ∧ (saveCallerInfoResponse argsDemo (some "anonymous")).INSTRUCTION = none := by
  refine ⟨rfl, ?_, ?_, ?_⟩ <;> rfl

/-- C4 amended: whenever the save_caller_info arguments carry the
demo-booking intent and the known caller number contains at least three
digits, the handler result carries the spoken-confirmation instruction
quoting the last three digits of the number (space-separated), the
INSTRUCTION field, and the generic success result. -/
theorem demo_confirmation_amended (args : SaveArgs) (num : String)
    (hIntent : args.intent = some "demo_booking")
    (hDigits : 3 ≤ (digitsOf num).length) :
    (saveCallerInfoResponse args (some num)).SPEAK_THIS =
      some ("Demo is all set. Is it okay to call you on the number you are calling from, which ends in "
        ++ spaceOut ((digitsOf num).drop ((digitsOf num).length - 3)) ++ "?")
    ∧ (saveCallerInfoResponse args (some num)).INSTRUCTION.isSome = true
    ∧ (saveCallerInfoResponse args (some num)).success = true
    ∧ (saveCallerInfoResponse args (some num)).saved = args := by
  have hne : num ≠ "" := by
    intro h
    rw [h] at hDigits
    simp [digitsOf] at hDigits
  have htr : truthyStr (some num) = true := by
    simp [truthyStr]
    exact hne
  have hpd : phoneDigitsOf (some num) = digitsOf num := by
    simp [phoneDigitsOf, htr]
  have hl3 : last3Of (some num) = (digitsOf num).drop ((digitsOf num).length - 3) := by
    simp [last3Of, hpd, hDigits]
  have hlen : ((digitsOf num).drop ((digitsOf num).length - 3)).length = 3 := by
    rw [List.length_drop]
    omega
  have hne3 : ((digitsOf num).drop ((digitsOf num).length - 3)).isEmpty = false := by
    cases hD : (digitsOf num).drop ((digitsOf num).length - 3) with
    | nil => rw [hD] at hlen; simp at hlen
    | cons a l => rfl
  refine ⟨?_, ?_, ?_, ?_⟩ <;>
    simp [saveCallerInfoResponse, hl3, hIntent, hne3, htr]

/-- C4 witness: a caller number carrying eleven digits produces the
confirmation sentence quoting its last three digits 6, 7, 8. -/
theorem demo_confirmation_amended_witness :
    3 ≤ (digitsOf "+61412345678").length
    ∧ (saveCallerInfoResponse argsDemo (some "+61412345678")).SPEAK_THIS =
        some "Demo is all set. Is it okay to call you on the number you are calling from, which ends in 6 7 8?" := by
  refine ⟨by decide, ?_⟩
  have h := (demo_confirmation_amended argsDemo "+61412345678" rfl (by decide)).1
  rw [h]
  decide

/-! ## Finalization counting (claim C1) -/

theorem step_finalizeCount (s : Session) (e : Ev) :
    (step s e).1.finalizeCount =
      s.finalizeCount + (if isFinalizeEvent e then 1 else 0) := by
  cases e with
  | openAiOpen =>
      simp only [step, initializeSession, isFinalizeEvent]
      split <;> simp
  | openAi e =>
      cases e with
      | speechStarted =>
          simp [step, processOaiEvent, resetInactivityTimer, isFinalizeEvent]
      | inputTranscriptDone t =>
          simp only [step, processOaiEvent, isFinalizeEvent]
          split <;> simp
      | outputAudioTranscriptDone t =>
          simp only [step, processOaiEvent, isFinalizeEvent]
          split
          · simp
          · split <;> simp
      | responseAudioDone =>
          simp [step, processOaiEvent, startInactivityTimer, isFinalizeEvent]
      | responseDone =>
          simp [step, processOaiEvent, startInactivityTimer, isFinalizeEvent]
      | outputAudioDelta d i =>
          simp only [step, processOaiEvent, isFinalizeEvent]
          cases h : s.streamSid <;>
            simp [apply_ite Session.finalizeCount, ite_self]
      | speechStopped =>
          simp only [step, processOaiEvent, handleSpeechStartedEvent, isFinalizeEvent]
          cases hq : s.markQueue with
          | nil => simp
          | cons a rest => cases hr : s.responseStartTimestampTwilio <;> simp
  | twilio e =>
      cases e with
      | media ts p => simp [step, processTwilioEvent, isFinalizeEvent]
      | start sid =>
          simp only [step, processTwilioEvent, isFinalizeEvent]
          split <;> simp
      | stop => simp [step, processTwilioEvent, isFinalizeEvent]
      | mark =>
          simp only [step, processTwilioEvent, isFinalizeEvent]
          cases s.markQueue <;> simp
  | connClose =>
      simp only [step, processConnectionClose, clearTimers, isFinalizeEvent]
      split <;> split <;> simp

theorem run_finalizeCount (evs : List Ev) :
    ∀ s : Session,
      (run s evs).1.finalizeCount =
        s.finalizeCount + evs.countP (fun e => isFinalizeEvent e) := by
  induction evs with
  | nil => intro s; simp [run]
  | cons e rest ih =>
      intro s
      simp only [run]
      rw [ih, step_finalizeCount, List.countP_cons]
      by_cases h : isFinalizeEvent e <;> simp [h] <;> omega

/-- C1 counterexample: delivering both the telephony stop event and the
connection close event for the same call runs the finalization logic
(saveTranscript, which persists, backs up and emails the record) twice,
not exactly once. -/
theorem finalize_twice_counterexample :
    (run initialSession [Ev.twilio TwEvent.stop, Ev.connClose]).1.finalizeCount = 2
    ∧ ¬((run initialSession [Ev.twilio TwEvent.stop, Ev.connClose]).1.finalizeCount = 1) := by
  exact ⟨rfl, by decide⟩

/-- C1 amended: the finalization logic runs once per delivered
termination event — the stop handler and the close handler each invoke
saveTranscript unconditionally, so over any event sequence the number of
finalization runs equals the number of stop/close events delivered (two
when both legs report closure). -/
theorem finalize_count_equals_termination_events (evs : List Ev) :
    (run initialSession evs).1.finalizeCount =
      evs.countP (fun e => isFinalizeEvent e) := by
  have h := run_finalizeCount evs initialSession
  simpa [initialSession] using h

/-! ## Audio buffering before the stream identifier is known (claim C6) -/

theorem run_append (a : List Ev) :
    ∀ (s : Session) (b : List Ev),
      run s (a ++ b) =
        ((run (run s a).1 b).1, (run s a).2 ++ (run (run s a).1 b).2) := by
  induction a with
  | nil => intro s b; simp [run]
  | cons e rest ih =>
      intro s b
      simp [run, ih]

theorem run_buffer_deltas (ds : List (String × Option String)) :
    ∀ s : Session, s.streamSid = none →
      run s (ds.map fun d => Ev.openAi (OaiEvent.outputAudioDelta d.1 d.2)) =
        ({ s with pendingAudioDeltas := s.pendingAudioDeltas ++ ds.map fun d => d.1 }, []) := by
  induction ds with
  | nil => intro s h; simp [run]
  | cons d rest ih =>
      intro s h
      simp only [List.map_cons, run, step, processOaiEvent, h]
      rw [ih { s with streamSid := none
                      pendingAudioDeltas := s.pendingAudioDeltas ++ [d.1] } rfl]
      simp

/-- C6: every AI audio delta that arrives before the telephony stream
identifier is known is buffered, and on the start event carrying the
identifier the buffered deltas are forwarded to the telephony leg in
their original arrival order exactly once (the media commands sent are
precisely the buffered payloads, in order), after which the buffer is
empty. -/
theorem pending_audio_flushed_in_order (ds : List (String × Option String)) (sid : String) :
    twilioMediaPayloads
        (run initialSession
          ((ds.map fun d => Ev.openAi (OaiEvent.outputAudioDelta d.1 d.2))
            ++ [Ev.twilio (TwEvent.start sid)])).2 =
      ds.map (fun d => d.1)
    ∧ (run initialSession
          ((ds.map fun d => Ev.openAi (OaiEvent.outputAudioDelta d.1 d.2))
            ++ [Ev.twilio (TwEvent.start sid)])).1.pendingAudioDeltas = [] := by
  rw [run_append, run_buffer_deltas ds initialSession rfl]
  constructor
  · simp [run, step, processTwilioEvent, initialSession, twilioMediaPayloads]
    induction ds with
    | nil => rfl
    | cons d rest ih => simpa using ih
  · simp [run, step, processTwilioEvent, initialSession]

/-! ## Greeting join (claim C5) -/

theorem countP_greeting_media_map (sid : String) (l : List String) :
    List.countP (fun m => isGreetingItem m)
      (l.map fun d => Sent.toTwilio (TwMsg.media sid d)) = 0 := by
  induction l with
  | nil => rfl
  | cons d rest ih => simp [List.countP_cons, isGreetingItem, ih]

theorem step_greetingFlag (s : Session) (e : Ev) :
    greetingCount (step s e).2 +
        (if (step s e).1.shouldSendInitialGreeting then 1 else 0) =
      (if s.shouldSendInitialGreeting then 1 else 0) := by
  cases e with
  | openAiOpen =>
      simp only [step, initializeSession]
      split
      · rename_i hc
        rw [Bool.and_eq_true] at hc
        simp [greetingCount, greetingDirective, isGreetingItem, List.countP_cons, hc.2]
      · simp [greetingCount, isGreetingItem, List.countP_cons]
  | openAi e =>
      cases e with
      | speechStarted =>
          simp only [step, processOaiEvent, resetInactivityTimer]
          split <;> simp [greetingCount, isGreetingItem, List.countP_cons]
      | inputTranscriptDone t =>
          simp only [step, processOaiEvent]
          split <;> simp [greetingCount]
      | outputAudioTranscriptDone t =>
          simp only [step, processOaiEvent]
          split
          · simp [greetingCount]
          · split <;> simp [greetingCount]
      | responseAudioDone =>
          simp only [step, processOaiEvent, startInactivityTimer]
          split <;> simp [greetingCount, isGreetingItem, List.countP_cons]
      | responseDone =>
          simp only [step, processOaiEvent, startInactivityTimer]
          split <;> simp [greetingCount, isGreetingItem, List.countP_cons]
      | outputAudioDelta d i =>
          obtain ⟨ss, lmt, lai, mq, rst, si, ssg, pad, cl, iwc, it, db, dr, fc⟩ := s
          cases ss <;>
            simp [step, processOaiEvent, greetingCount, isGreetingItem, List.countP_cons,
              apply_ite Session.shouldSendInitialGreeting, ite_self]
      | speechStopped =>
          obtain ⟨ss, lmt, lai, mq, rst, si, ssg, pad, cl, iwc, it, db, dr, fc⟩ := s
          simp only [step, processOaiEvent, handleSpeechStartedEvent]
          cases mq with
          | nil => simp [greetingCount]
          | cons a rest =>
              cases rst with
              | none => simp [greetingCount]
              | some t =>
                  cases lai <;>
                    simp [greetingCount, isGreetingItem, List.countP_cons]
  | twilio e =>
      cases e with
      | media ts p => simp [step, processTwilioEvent, greetingCount, isGreetingItem,
          List.countP_cons]
      | start sid =>
          simp only [step, processTwilioEvent]
          split
          · rename_i hc
            rw [Bool.and_eq_true] at hc
            simp [greetingCount, greetingDirective, isGreetingItem, List.countP_cons,
              List.countP_append, countP_greeting_media_map, hc.2]
          · simp [greetingCount, List.countP_append, countP_greeting_media_map,
              isGreetingItem]
      | stop => simp [step, processTwilioEvent, greetingCount]
      | mark =>
          obtain ⟨ss, lmt, lai, mq, rst, si, ssg, pad, cl, iwc, it, db, dr, fc⟩ := s
          simp only [step, processTwilioEvent]
          cases mq <;> simp [greetingCount]
  | connClose =>
      simp only [step, processConnectionClose, clearTimers]
      split <;> split <;>
        simp [greetingCount, isGreetingItem, List.countP_cons]

theorem run_greetingFlag (evs : List Ev) :
    ∀ s : Session,
      greetingCount (run s evs).2 +
          (if (run s evs).1.shouldSendInitialGreeting then 1 else 0) =
        (if s.shouldSendInitialGreeting then 1 else 0) := by
  induction evs with
  | nil => intro s; simp [run, greetingCount]
  | cons e rest ih =>
      intro s
      have h1 := step_greetingFlag s e
      have h2 := ih (step s e).1
      simp only [run, greetingCount, List.countP_append] at h1 h2 ⊢
      omega

theorem step_sessionInitialized_mono (s : Session) (e : Ev)
    (h : s.sessionInitialized = true) : (step s e).1.sessionInitialized = true := by
  cases e with
  | openAiOpen =>
      simp only [step, initializeSession]
      split <;> rfl
  | openAi e =>
      cases e with
      | speechStarted => simpa [step, processOaiEvent, resetInactivityTimer] using h
      | inputTranscriptDone t =>
          simp only [step, processOaiEvent]
          split <;> simpa using h
      | outputAudioTranscriptDone t =>
          simp only [step, processOaiEvent]
          split
          · simpa using h
          · split <;> simpa using h
      | responseAudioDone => simpa [step, processOaiEvent, startInactivityTimer] using h
      | responseDone => simpa [step, processOaiEvent, startInactivityTimer] using h
      | outputAudioDelta d i =>
          simp only [step, processOaiEvent]
          cases hs : s.streamSid <;>
            simpa [apply_ite Session.sessionInitialized, ite_self] using h
      | speechStopped =>
          simp only [step, processOaiEvent, handleSpeechStartedEvent]
          cases hq : s.markQueue with
          | nil => simpa using h
          | cons a rest =>
              cases hr : s.responseStartTimestampTwilio with
              | none => simpa using h
              | some t => cases hi : s.lastAssistantItem <;> simpa using h
  | twilio e =>
      cases e with
      | media ts p => simpa [step, processTwilioEvent] using h
      | start sid =>
          simp only [step, processTwilioEvent]
          split <;> simpa using h
      | stop => simpa [step, processTwilioEvent] using h
      | mark =>
          simp only [step, processTwilioEvent]
          cases s.markQueue <;> simpa using h
  | connClose =>
      simp only [step, processConnectionClose, clearTimers]
      split <;> split <;> simpa using h

theorem step_streamSid_isSome_mono (s : Session) (e : Ev)
    (h : s.streamSid.isSome = true) : (step s e).1.streamSid.isSome = true := by
  cases e with
  | openAiOpen =>
      simp only [step, initializeSession]
      split <;> simpa using h
  | openAi e =>
      cases e with
      | speechStarted => simpa [step, processOaiEvent, resetInactivityTimer] using h
      | inputTranscriptDone t =>
          simp only [step, processOaiEvent]
          split <;> simpa using h
      | outputAudioTranscriptDone t =>
          simp only [step, processOaiEvent]
          split
          · simpa using h
          · split <;> simpa using h
      | responseAudioDone => simpa [step, processOaiEvent, startInactivityTimer] using h
      | responseDone => simpa [step, processOaiEvent, startInactivityTimer] using h
      | outputAudioDelta d i =>
          simp only [step, processOaiEvent]
          cases hs : s.streamSid with
          | none => rw [hs] at h; simp at h
          | some sid =>
              simp only [apply_ite Session.streamSid, ite_self]
              simpa [apply_ite Session.streamSid, ite_self, hs] using h
      | speechStopped =>
          simp only [step, processOaiEvent, handleSpeechStartedEvent]
          cases hq : s.markQueue with
          | nil => simpa using h
          | cons a rest =>
              cases hr : s.responseStartTimestampTwilio with
              | none => simpa using h
              | some t => cases hi : s.lastAssistantItem <;> simpa using h
  | twilio e =>
      cases e with
      | media ts p => simpa [step, processTwilioEvent] using h
      | start sid =>
          simp only [step, processTwilioEvent]
          split <;> rfl
      | stop => simpa [step, processTwilioEvent] using h
      | mark =>
          simp only [step, processTwilioEvent]
          cases s.markQueue <;> simpa using h
  | connClose =>
      simp only [step, processConnectionClose, clearTimers]
      split <;> split <;> simpa using h

theorem step_openAiOpen_initialized (s : Session) :
    (step s Ev.openAiOpen).1.sessionInitialized = true := by
  simp only [step, initializeSession]
  split <;> rfl

theorem step_start_streamSid (s : Session) (sid : String) :
    (step s (Ev.twilio (TwEvent.start sid))).1.streamSid.isSome = true := by
  simp only [step, processTwilioEvent]
  split <;> rfl

theorem run_sessionInitialized_mono (evs : List Ev) :
    ∀ s : Session, s.sessionInitialized = true →
      (run s evs).1.sessionInitialized = true := by
  induction evs with
  | nil => intro s h; simpa [run] using h
  | cons e rest ih =>
      intro s h
      simp only [run]
      exact ih _ (step_sessionInitialized_mono s e h)

theorem run_streamSid_isSome_mono (evs : List Ev) :
    ∀ s : Session, s.streamSid.isSome = true →
      (run s evs).1.streamSid.isSome = true := by
  induction evs with
  | nil => intro s h; simpa [run] using h
  | cons e rest ih =>
      intro s h
      simp only [run]
      exact ih _ (step_streamSid_isSome_mono s e h)

theorem run_sessionInitialized_of_mem (evs : List Ev) :
    ∀ s : Session, Ev.openAiOpen ∈ evs →
      (run s evs).1.sessionInitialized = true := by
  induction evs with
  | nil => intro s h; simp at h
  | cons e rest ih =>
      intro s h
      simp only [run]
      rcases List.mem_cons.mp h with he | hr
      · rw [← he]
        exact run_sessionInitialized_mono rest _ (step_openAiOpen_initialized s)
      · exact ih _ hr

theorem run_streamSid_of_mem (evs : List Ev) (sid : String) :
    ∀ s : Session, Ev.twilio (TwEvent.start sid) ∈ evs →
      (run s evs).1.streamSid.isSome = true := by
  induction evs with
  | nil => intro s h; simp at h
  | cons e rest ih =>
      intro s h
      simp only [run]
      rcases List.mem_cons.mp h with he | hr
      · rw [← he]
        exact run_streamSid_isSome_mono rest _ (step_start_streamSid s sid)
      · exact ih _ hr

theorem step_greeting_inv (s : Session) (e : Ev)
    (h : s.shouldSendInitialGreeting = true →
      s.sessionInitialized = false ∨ s.streamSid.isSome = false) :
    (step s e).1.shouldSendInitialGreeting = true →
      (step s e).1.sessionInitialized = false ∨ (step s e).1.streamSid.isSome = false := by
  cases e with
  | openAiOpen =>
      simp only [step, initializeSession]
      split
      · intro hf
        exact absurd hf (by simp)
      · rename_i hc
        intro hf
        right
        cases hb : s.streamSid.isSome with
        | false => exact rfl
        | true =>
            exfalso
            have hfs : s.shouldSendInitialGreeting = true := hf
            rw [hb, hfs] at hc
            exact hc rfl
  | openAi e =>
      cases e with
      | speechStarted => simpa [step, processOaiEvent, resetInactivityTimer] using h
      | inputTranscriptDone t =>
          simp only [step, processOaiEvent]
          split <;> simpa using h
      | outputAudioTranscriptDone t =>
          simp only [step, processOaiEvent]
          split
          · simpa using h
          · split <;> simpa using h
      | responseAudioDone => simpa [step, processOaiEvent, startInactivityTimer] using h
      | responseDone => simpa [step, processOaiEvent, startInactivityTimer] using h
      | outputAudioDelta d i =>
          simp only [step, processOaiEvent]
          cases hs : s.streamSid with
          | none => simpa using h
          | some sid =>
              simpa [apply_ite Session.shouldSendInitialGreeting,
                apply_ite Session.sessionInitialized, apply_ite Session.streamSid,
                ite_self, hs] using h
      | speechStopped =>
          simp only [step, processOaiEvent, handleSpeechStartedEvent]
          cases hq : s.markQueue with
          | nil => simpa using h
          | cons a rest =>
              cases hr : s.responseStartTimestampTwilio with
              | none => simpa using h
              | some t => cases hi : s.lastAssistantItem <;> simpa using h
  | twilio e =>
      cases e with
      | media ts p => simpa [step, processTwilioEvent] using h
      | start sid =>
          simp only [step, processTwilioEvent]
          split
          · intro hf
            exact absurd hf (by simp)
          · rename_i hc
            intro hf
            left
            have hfs : s.shouldSendInitialGreeting = true := hf
            cases hb : s.sessionInitialized with
            | false => exact rfl
            | true =>
                exfalso
                rw [hb, hfs] at hc
                exact hc rfl
      | stop => simpa [step, processTwilioEvent] using h
      | mark =>
          simp only [step, processTwilioEvent]
          cases s.markQueue <;> simpa using h
  | connClose =>
      simp only [step, processConnectionClose, clearTimers]
      split <;> split <;> simpa using h

theorem run_greeting_inv (evs : List Ev) :
    ∀ s : Session,
      (s.shouldSendInitialGreeting = true →
        s.sessionInitialized = false ∨ s.streamSid.isSome = false) →
      ((run s evs).1.shouldSendInitialGreeting = true →
        (run s evs).1.sessionInitialized = false ∨ (run s evs).1.streamSid.isSome = false) := by
  induction evs with
  | nil => intro s h; simpa [run] using h
  | cons e rest ih =>
      intro s h
      simp only [run]
      exact ih _ (step_greeting_inv s e h)

/-- C5: over any event sequence of a call that contains the AI-provider
handshake completion and a telephony start event (in either order, with
any other events interleaved), the greeting directive is sent to the AI
provider exactly once. -/
theorem greeting_sent_exactly_once (evs : List Ev)
    (hOpen : Ev.openAiOpen ∈ evs)
    (hStart : ∃ sid, Ev.twilio (TwEvent.start sid) ∈ evs) :
    greetingCount (run initialSession evs).2 = 1 := by
  obtain ⟨sid, hsid⟩ := hStart
  have hinit := run_sessionInitialized_of_mem evs initialSession hOpen
  have hsome := run_streamSid_of_mem evs sid initialSession hsid
  have hinv := run_greeting_inv evs initialSession (fun _ => Or.inl rfl)
  have hcount := run_greetingFlag evs initialSession
  cases hf : (run initialSession evs).1.shouldSendInitialGreeting with
  | true =>
      rcases hinv hf with hc | hc
      · rw [hinit] at hc; exact absurd hc (by simp)
      · rw [hsome] at hc; exact absurd hc (by simp)
  | false =>
      rw [hf] at hcount
      simpa [initialSession] using hcount

/-- C5 witness: a run where the stream identifier becomes known first
and the handshake completes second sends the greeting once. -/
theorem greeting_sent_exactly_once_witness :
    greetingCount
      (run initialSession [Ev.twilio (TwEvent.start "MZ1"), Ev.openAiOpen]).2 = 1 :=
  greeting_sent_exactly_once [Ev.twilio (TwEvent.start "MZ1"), Ev.openAiOpen]
    (by simp) ⟨"MZ1", by simp⟩

/-! ## Phone lookup refinement (claim C10) -/

theorem collectMatches_acc (pn : String) :
    ∀ (ms : List PhoneMapping) (acc : List PropertyMatch) (seen : List String),
      ∃ l, collectMatches pn ms acc seen = acc ++ l := by
  intro ms
  induction ms with
  | nil => intro acc seen; exact ⟨[], by simp [collectMatches]⟩
  | cons m rest ih =>
      intro acc seen
      simp only [collectMatches]
      split
      · obtain ⟨l, hl⟩ := ih (acc ++ [matchResultOf m]) (seen ++ [m.property_id])
        exact ⟨[matchResultOf m] ++ l, by rw [hl, List.append_assoc]⟩
      · exact ih acc seen

theorem findFirstMatch_eq_find (pn : String) :
    ∀ ms : List PhoneMapping,
      findFirstMatch pn ms = (ms.find? fun m => phoneMatches pn m).map matchResultOf := by
  intro ms
  induction ms with
  | nil => rfl
  | cons m rest ih =>
      cases h1 : normalizePhone pn == normalizePhone m.phone_number with
      | true =>
          rw [findFirstMatch, if_pos h1,
            List.find?_cons_of_pos _ (by simp [phoneMatches, h1])]
          rfl
      | false =>
          cases h2 : pn == m.phone_number with
          | true =>
              rw [findFirstMatch, if_neg (by simp [h1]), if_pos h2,
                List.find?_cons_of_pos _ (by simp [phoneMatches, h2])]
              rfl
          | false =>
              rw [findFirstMatch, if_neg (by simp [h1]), if_neg (by simp [h2]),
                List.find?_cons_of_neg _ (by simp [phoneMatches, h1, h2])]
              exact ih

theorem collectMatches_head (pn : String) :
    ∀ ms : List PhoneMapping,
      (collectMatches pn ms [] []).head? =
        (ms.find? fun m => phoneMatches pn m).map matchResultOf := by
  intro ms
  induction ms with
  | nil => rfl
  | cons m rest ih =>
      cases hm : phoneMatches pn m with
      | true =>
          simp only [collectMatches, hm]
          rw [List.find?_cons_of_pos _ hm]
          obtain ⟨l, hl⟩ :=
            collectMatches_acc pn rest [matchResultOf m] [m.property_id]
          simp [hm, hl]
      | false =>
          simp only [collectMatches, hm]
          rw [List.find?_cons_of_neg _ (by simp [hm])]
          simpa [hm] using ih

/-- C10: the multi-match findPhoneMatch agrees with the single-match
findPhoneMatch: projecting its top-level backward-compatibility fields
yields exactly the single-match result (so both are none together, and
on a match the top-level property_id, property_name and phone_number
equal the fields of the first matching mapping in list order); and the
single-match version returns none exactly when the phone number is
falsy or no mapping matches under digit-normalized or literal
equality. -/
theorem findPhoneMatch_refinement (pn : String) (ms : List PhoneMapping) :
    Option.map topLevelOf (findPhoneMatchAll pn ms) = findPhoneMatchOne pn ms
    ∧ (findPhoneMatchOne pn ms = none ↔
        (pn = "" ∨ ms.all (fun m => !(phoneMatches pn m)) = true)) := by
  constructor
  · cases hb : pn == "" with
    | true => simp [findPhoneMatchAll, findPhoneMatchOne, hb]
    | false =>
        simp only [findPhoneMatchAll, findPhoneMatchOne, hb]
        have hh := collectMatches_head pn ms
        rw [findFirstMatch_eq_find]
        cases hC : collectMatches pn ms [] [] with
        | nil =>
            rw [hC] at hh
            simp at hh
            simp [← hh]
        | cons f l =>
            rw [hC] at hh
            simp at hh
            rw [← hh]
            cases f
            simp [topLevelOf]
  · cases hb : pn == "" with
    | true =>
        have : pn = "" := by simpa using hb
        simp [findPhoneMatchOne, hb, this]
    | false =>
        have hne : ¬(pn = "") := by simpa using hb
        simp [findPhoneMatchOne, hb, findFirstMatch_eq_find, hne,
          List.find?_eq_none, List.all_eq_true]

end VoiceAgent

